import Mathlib

/-!
Verification of the sengled-rs client library (src/sengled/src/lib.rs,
src/sengled/src/device.rs) and its surrounding server (src/sengled-server).
The Rust code is shallowly embedded: network effects become explicit
parameters (the outcome of the single HTTP round trip, the stream of inbound
MQTT events), MQTT side effects become values of an action type, and the
wall clock becomes a reading stream `Nat → Int` consumed one reading per
`chrono::Utc::now()` call site.
-/

namespace Sengled

/-- MQTT quality of service, mirroring rumqttc::QoS. -/
inductive QoS
  | atMostOnce
  | atLeastOnce
  | exactlyOnce
deriving DecidableEq, Repr

/-- Error enum of src/sengled/src/lib.rs. Payload details of the wrapped
library errors are irrelevant to the claims and elided. -/
inductive Error
  | reqwest
  | serialization
  | parse
  | mqttClient
  | loggedIn
  | disconnected
  | connectionFailure
deriving DecidableEq, Repr

/-- Outcome of a call that may `panic` (Rust assert! / unwrap) instead of
returning. `panicked` models a panic, which is not a recoverable value. -/
inductive Outcome (α : Type)
  | panicked (msg : String)
  | ok (a : α)
deriving DecidableEq, Repr

/-- Whether an outcome is a panic. -/
def Outcome.isPanic {α : Type} : Outcome α → Bool
  | .panicked _ => true
  | .ok _ => false

/-- Attribute map of a device: HashMap<String, String> modelled pointwise. -/
def AttrMap := String → Option String

/-- HashMap::insert on the attribute map: overwrite the key, keep the rest. -/
def insertAttr (m : AttrMap) (k v : String) : AttrMap :=
  fun kk => if kk = k then some v else m kk

/-- Device of src/sengled/src/device.rs. -/
structure Device where
  category : String
  mac : String
  type_code : String
  attributes : AttrMap

/-- Device::get_attribute. -/
def Device.get_attribute (d : Device) (attr : String) : Option String :=
  d.attributes attr

/-- The server's device cache (DashMap<String, sengled::Device>), modelled
as a map from device id to device. -/
def Cache := String → Option Device

/- ---------------------------------------------------------------------
Topic decoding: the anchored regex "^wifielement/([0-9A-F:]+)/status$"
of EventHandler::poll (src/sengled/src/lib.rs line 413).
--------------------------------------------------------------------- -/

/-- Character class [0-9A-F:] of the status-topic regex. -/
def isMacChar (c : Char) : Bool :=
  ( '0' ≤ c && c ≤ '9') || ( 'A' ≤ c && c ≤ 'F') || c == ':'

/-- The fixed text before the capture group of the status-topic regex. -/
def statusPre : List Char := "wifielement/".data

/-- The fixed text after the capture group of the status-topic regex. -/
def statusSuf : List Char := "/status".data

/-- Match the anchored regex "^wifielement/([0-9A-F:]+)/status$" on a topic
given as a character list, returning the capture group. Because the class
[0-9A-F:] excludes the slash, a match decomposes the topic uniquely into
the twelve-character head, the capture, and the seven-character tail. -/
def decodeTopicChars (cs : List Char) : Option (List Char) :=
  if cs.take 12 = statusPre ∧ cs.drop (cs.length - 7) = statusSuf ∧ 20 ≤ cs.length then
    if ((cs.drop 12).take (cs.length - 19)).all isMacChar then
      some ((cs.drop 12).take (cs.length - 19))
    else none
  else none

/-- Match the status-topic regex on a topic string. -/
def decodeTopic (topic : String) : Option String :=
  (decodeTopicChars topic.data).map String.mk

/- ---------------------------------------------------------------------
Inbound payload decoding: serde_json::from_slice::<Vec<{type, value}>> at
src/sengled/src/lib.rs lines 428-429, modelled by a concrete parser for
the JSON fragment the payload uses: an array of flat objects whose fields
are plain (escape-free) strings. Records must carry both a "type" and a
"value" field; other fields are ignored.
--------------------------------------------------------------------- -/

/-- JSON whitespace. -/
def isWs (c : Char) : Bool := c == ' ' || c == '\n' || c == '\t' || c == '\r'

/-- Drop leading JSON whitespace. -/
def skipWs : List Char → List Char
  | [] => []
  | c :: cs => if isWs c then skipWs cs else c :: cs

/-- Parse the body of a JSON string after the opening quote; escapes are
outside the modelled fragment and rejected. -/
def parseStrBody : List Char → Option (List Char × List Char)
  | [] => none
  | c :: cs =>
    if c == '"' then some ([], cs)
    else if c == '\\' then none
    else
      match parseStrBody cs with
      | some (s, rest) => some (c :: s, rest)
      | none => none

/-- Parse a JSON string literal. -/
def parseStr : List Char → Option (List Char × List Char)
  | '"' :: cs => parseStrBody cs
  | _ => none

/-- Parse one `"key": "value"` member of an object. -/
def parsePair (cs : List Char) : Option ((List Char × List Char) × List Char) :=
  match parseStr cs with
  | none => none
  | some (k, rest) =>
    match skipWs rest with
    | ':' :: rest2 =>
      match parseStr (skipWs rest2) with
      | none => none
      | some (v, rest3) => some ((k, v), rest3)
    | _ => none

/-- Parse the members of an object after the first member, up to and
including the closing brace. Fuel bounds the recursion. -/
def parseObjTail (fuel : Nat) (cs : List Char) :
    Option (List (List Char × List Char) × List Char) :=
  match fuel with
  | 0 => none
  | fuel + 1 =>
    match skipWs cs with
    | '}' :: rest => some ([], rest)
    | ',' :: rest =>
      match parsePair (skipWs rest) with
      | none => none
      | some (p, rest2) =>
        match parseObjTail fuel rest2 with
        | none => none
        | some (ps, rest3) => some (p :: ps, rest3)
    | _ => none

/-- Parse a flat JSON object of string-valued members. -/
def parseObj (fuel : Nat) (cs : List Char) :
    Option (List (List Char × List Char) × List Char) :=
  match cs with
  | '{' :: rest =>
    match skipWs rest with
    | '}' :: rest2 => some ([], rest2)
    | rest1 =>
      match parsePair rest1 with
      | none => none
      | some (p, rest2) =>
        match parseObjTail fuel rest2 with
        | none => none
        | some (ps, rest3) => some (p :: ps, rest3)
  | _ => none

/-- Parse the elements of an array after the first element, up to and
including the closing bracket. -/
def parseArrTail (fuel : Nat) (cs : List Char) :
    Option (List (List (List Char × List Char)) × List Char) :=
  match fuel with
  | 0 => none
  | fuel + 1 =>
    match skipWs cs with
    | ']' :: rest => some ([], rest)
    | ',' :: rest =>
      match parseObj fuel (skipWs rest) with
      | none => none
      | some (o, rest2) =>
        match parseArrTail fuel rest2 with
        | none => none
        | some (os, rest3) => some (o :: os, rest3)
    | _ => none

/-- Parse a JSON array of flat objects. -/
def parseArr (fuel : Nat) (cs : List Char) :
    Option (List (List (List Char × List Char)) × List Char) :=
  match cs with
  | '[' :: rest =>
    match skipWs rest with
    | ']' :: rest2 => some ([], rest2)
    | rest1 =>
      match parseObj fuel rest1 with
      | none => none
      | some (o, rest2) =>
        match parseArrTail fuel rest2 with
        | none => none
        | some (os, rest3) => some (o :: os, rest3)
  | _ => none

/-- Look a field up among an object's members (first occurrence wins). -/
def lookupField (ps : List (List Char × List Char)) (k : List Char) : Option (List Char) :=
  match ps with
  | [] => none
  | (k2, v) :: rest => if k2 = k then some v else lookupField rest k

/-- Extract the `type` and `value` fields of one record, as serde does for
the AttributesChangedPayload struct; both must be present. -/
def recordOfPairs (ps : List (List Char × List Char)) : Option (String × String) :=
  match lookupField ps "type".data, lookupField ps "value".data with
  | some t, some v => some (String.mk t, String.mk v)
  | _, _ => none

/-- Decode every object of the array into a (type, value) record. -/
def recordsOfObjs : List (List (List Char × List Char)) → Option (List (String × String))
  | [] => some []
  | o :: os =>
    match recordOfPairs o, recordsOfObjs os with
    | some r, some rs => some (r :: rs)
    | _, _ => none

/-- Decode an inbound payload, as serde_json::from_slice for
Vec<AttributesChangedPayload>: the whole input must be one JSON array of
records, each carrying string fields "type" and "value". -/
def parsePayload (cs : List Char) : Option (List (String × String)) :=
  match parseArr (cs.length + 1) (skipWs cs) with
  | none => none
  | some (objs, rest) =>
    if skipWs rest = [] then recordsOfObjs objs else none

/- ---------------------------------------------------------------------
The client (src/sengled/src/lib.rs). Network effects are explicit
parameters; MQTT side effects are returned as MqttAction values.
--------------------------------------------------------------------- -/

/-- ClientState of src/sengled/src/lib.rs: the live MQTT handle (opaque
here) together with the optionally spawned listener task handle. -/
structure ClientState where
  listener_handle : Option Unit
deriving DecidableEq, Repr

/-- Client of src/sengled/src/lib.rs. The reqwest::Client field carries no
observable state and is elided. -/
structure Client where
  username : String
  password : String
  preferred_qos : QoS
  skip_server_check : Bool
  session : Option String
  state : Option ClientState
deriving DecidableEq, Repr

/-- Client::new. -/
def Client.new (username password : String) : Client :=
  { username := username
    password := password
    preferred_qos := QoS.atMostOnce
    skip_server_check := false
    state := none
    session := none }

/-- Client::with_preferred_qos. -/
def Client.with_preferred_qos (c : Client) (qos : QoS) : Client :=
  { c with preferred_qos := qos }

/-- Client::with_skip_server_check. -/
def Client.with_skip_server_check (c : Client) : Client :=
  { c with skip_server_check := true }

/-- Client::set_session. -/
def Client.set_session (c : Client) (value : String) : Client :=
  { c with session := some value }

/-- Client::login. The outcome of the single HTTP round trip to the
identity endpoint (transport or deserialization error, or the jsessionId)
is the explicit parameter `net`. Returns the updated client, the call's
result, and whether the network round trip was issued at all. -/
def Client.login (c : Client) (net : Except Error String) :
    Client × Except Error Unit × Bool :=
  if c.state.isSome then (c, Except.error Error.loggedIn, false)
  else
    match net with
    | Except.error e => (c, Except.error e, true)
    | Except.ok sess => ({ c with session := some sess }, Except.ok (), true)

/-- Client::start / create_client_state, reduced to its state transitions:
the session must be present (assert!), the connection acknowledgment
decides success. On success the connection state is installed (with no
listener spawned yet). -/
def Client.start (c : Client) (connAckOk : Bool) : Outcome (Except Error Client) :=
  match c.session with
  | none => Outcome.panicked "session has not been set! please use `login` or `set_session`"
  | some _ =>
    if connAckOk then
      Outcome.ok (Except.ok { c with state := some { listener_handle := none } })
    else Outcome.ok (Except.error Error.connectionFailure)

/-- The status topic "wifielement/{id}/status". -/
def statusTopic (mac : String) : String := "wifielement/" ++ mac ++ "/status"

/-- The update topic "wifielement/{id}/update". -/
def updateTopic (mac : String) : String := "wifielement/" ++ mac ++ "/update"

/-- One record of an outbound update envelope: the JSON object
`\x7b dn, type, value, time \x7d` built by the publish operations. -/
structure UpdateRecord where
  dn : String
  type : String
  value : String
  time : Int
deriving DecidableEq, Repr

/-- Payload of an outbound publish: one record, or a JSON array of them. -/
inductive WirePayload
  | single (r : UpdateRecord)
  | bulk (rs : List UpdateRecord)
deriving DecidableEq, Repr

/-- MQTT side effects issued through the rumqttc AsyncClient. -/
inductive MqttAction
  | subscribe (topic : String) (qos : QoS)
  | subscribeMany (filters : List (String × QoS))
  | publish (topic : String) (qos : QoS) (retain : Bool) (payload : WirePayload)
deriving DecidableEq, Repr

/-- Records carried by an action's payload. -/
def MqttAction.records : MqttAction → List UpdateRecord
  | .publish _ _ _ (.single r) => [r]
  | .publish _ _ _ (.bulk rs) => rs
  | _ => []

/-- Client::subscribe_device: assert the connection state, then subscribe
the device's status topic with the hard-coded QoS::AtMostOnce. -/
def Client.subscribe_device (c : Client) (device : String) : Outcome MqttAction :=
  match c.state with
  | none => Outcome.panicked "not logged in"
  | some _ => Outcome.ok (MqttAction.subscribe (statusTopic device) QoS.atMostOnce)

/-- Client::subscribe_devices: assert the connection state, then
subscribe_many with one filter per device, each with QoS::AtMostOnce. -/
def Client.subscribe_devices (c : Client) (devices : List String) : Outcome MqttAction :=
  match c.state with
  | none => Outcome.panicked "not logged in"
  | some _ =>
    Outcome.ok (MqttAction.subscribeMany
      (devices.map (fun d => (statusTopic d, QoS.atMostOnce))))

/-- Client::wifi_devices: assert the connection state, then one REST round
trip whose parsed outcome is the explicit parameter `response`. -/
def Client.wifi_devices (c : Client) (response : Except Error (List Device)) :
    Outcome (Except Error (List Device)) :=
  match c.state with
  | none => Outcome.panicked "not logged in"
  | some _ => Outcome.ok response

/-- Client::set_device_attribute: assert the connection state, build one
envelope record stamped with the current clock reading, and publish it on
the update topic with the client's preferred QoS. Returns the action and
the next clock index. -/
def Client.set_device_attribute (c : Client) (clock : Nat → Int) (t : Nat)
    (device attr value : String) : Outcome (MqttAction × Nat) :=
  match c.state with
  | none => Outcome.panicked "not logged in"
  | some _ =>
    Outcome.ok
      (MqttAction.publish (updateTopic device) c.preferred_qos false
        (WirePayload.single { dn := device, type := attr, value := value, time := clock t }),
       t + 1)

/-- Records of a bulk publish: the source loop stamps each record with its
own chrono::Utc::now() reading, so successive records consume successive
clock readings. -/
def stampRecords (device : String) (attrs : List (String × String))
    (clock : Nat → Int) (t : Nat) : List UpdateRecord :=
  match attrs with
  | [] => []
  | (k, v) :: rest =>
    { dn := device, type := k, value := v, time := clock t }
      :: stampRecords device rest clock (t + 1)

/-- Client::set_device_attributes: assert the connection state, build the
array-valued envelope (one record per attribute, each stamped at its
construction), and publish it as one message with the preferred QoS. -/
def Client.set_device_attributes (c : Client) (clock : Nat → Int) (t : Nat)
    (device : String) (attrs : List (String × String)) : Outcome (MqttAction × Nat) :=
  match c.state with
  | none => Outcome.panicked "not logged in"
  | some _ =>
    Outcome.ok
      (MqttAction.publish (updateTopic device) c.preferred_qos false
        (WirePayload.bulk (stampRecords device attrs clock t)),
       t + attrs.length)

/- ---------------------------------------------------------------------
The inbound event side: EventHandler::poll and the server's listener task.
--------------------------------------------------------------------- -/

/-- Inbound items delivered by the rumqttc event loop: the incoming
packets EventHandler::poll distinguishes, plus `transportError` for an
Err(_) of the loop itself. `other` stands for every other Ok(_) item. -/
inductive Incoming
  | publish (topic : String) (payload : List Char)
  | disconnect
  | connAck
  | other
  | transportError
deriving DecidableEq, Repr

/-- Event enum of src/sengled/src/lib.rs. -/
inductive Event
  | deviceAttributesChanged (device : String) (attributes : List (String × String))
deriving DecidableEq, Repr

/-- Result of one EventHandler::poll call on a finite inbound stream:
an event together with the not-yet-consumed rest of the stream, the
terminal disconnected error, a panic of the payload unwrap, or an
exhausted stream (the live loop would keep waiting). -/
inductive PollResult
  | ok (e : Event) (rest : List Incoming)
  | disconnected
  | panicked
  | pending
deriving DecidableEq, Repr

/-- EventHandler::poll: loop over the inbound stream; decode a publish
whose topic matches the status regex (skipping one that does not), unwrap
the payload decode (panicking on malformed payload), return Disconnected
on a disconnect packet or a transport error, and absorb everything else. -/
def pollList : List Incoming → PollResult
  | [] => PollResult.pending
  | Incoming.publish topic payload :: rest =>
    match decodeTopic topic with
    | none => pollList rest
    | some mac =>
      match parsePayload payload with
      | none => PollResult.panicked
      | some attrs => PollResult.ok (Event.deviceAttributesChanged mac attrs) rest
  | Incoming.disconnect :: _ => PollResult.disconnected
  | Incoming.connAck :: rest => pollList rest
  | Incoming.other :: rest => pollList rest
  | Incoming.transportError :: _ => PollResult.disconnected

/-- One iteration of the inner loop of the server's event listener task
(src/sengled-server/src/main.rs lines 122-129): look the device up in the
cache for each pair — skipping the pair when the id is absent — and insert
the attribute into the found device. -/
def applyEventPair (cache : Cache) (mac k v : String) : Cache :=
  match cache mac with
  | none => cache
  | some d =>
    fun id =>
      if id = mac then some { d with attributes := insertAttr d.attributes k v }
      else cache id

/-- Applying one decoded event to the cache: the listener task's for-loop
over the event's attribute pairs, in order. -/
def applyEvent (cache : Cache) (mac : String) (attrs : List (String × String)) : Cache :=
  attrs.foldl (fun c kv => applyEventPair c mac kv.1 kv.2) cache

/-- The server's event listener task (src/sengled-server/src/main.rs lines
118-133): `while let Ok(event) = event_handler.poll()` applied to a finite
inbound stream, with EventHandler::poll's loop inlined; the task ends (and
the cache stays as it is) on a disconnect, a transport error, or a panic
of the malformed-payload unwrap. -/
def listener_task (cache : Cache) : List Incoming → Cache
  | [] => cache
  | Incoming.publish topic payload :: rest =>
    match decodeTopic topic with
    | none => listener_task cache rest
    | some mac =>
      match parsePayload payload with
      | none => cache
      | some attrs => listener_task (applyEvent cache mac attrs) rest
  | Incoming.disconnect :: _ => cache
  | Incoming.connAck :: rest => listener_task cache rest
  | Incoming.other :: rest => listener_task cache rest
  | Incoming.transportError :: _ => cache

/- ---------------------------------------------------------------------
The toggle route (src/sengled-server/src/routes.rs lines 64-88).
--------------------------------------------------------------------- -/

/-- HTTP responses of the toggle route. -/
inductive ToggleResponse
  | notFound
  | badRequest
  | internalError
  | okValue (value : String)
deriving DecidableEq, Repr

/-- toggle_device of src/sengled-server/src/routes.rs: look the device up
in the cache (404 when absent), read its cached "switch" attribute (400
when absent), flip "0" to "1" and anything else to "0", and publish the
flipped value through Client::set_device_attribute. `publishOk` is the
outcome of the publish on the wire (500 when it failed). Returns the list
of MQTT actions issued and the response. -/
def toggle_device (c : Client) (clock : Nat → Int) (t : Nat) (publishOk : Bool)
    (devices : Cache) (id : String) : Outcome (List MqttAction × ToggleResponse) :=
  match devices id with
  | none => Outcome.ok ([], ToggleResponse.notFound)
  | some device =>
    match device.get_attribute "switch" with
    | none => Outcome.ok ([], ToggleResponse.badRequest)
    | some switch =>
      let new_switch := if switch = "0" then "1" else "0"
      match c.set_device_attribute clock t device.mac "switch" new_switch with
      | Outcome.panicked m => Outcome.panicked m
      | Outcome.ok (act, _) =>
        if publishOk then Outcome.ok ([act], ToggleResponse.okValue new_switch)
        else Outcome.ok ([act], ToggleResponse.internalError)

/- ---------------------------------------------------------------------
Sequences of publish calls, for the timestamp-monotonicity property.
--------------------------------------------------------------------- -/

/-- One publish call of a caller-chosen sequence. -/
inductive PublishCall
  | single (mac attr value : String)
  | bulk (mac : String) (attrs : List (String × String))
deriving DecidableEq, Repr

/-- Run one publish call, returning the envelope records it put on the
wire and the next clock index. -/
def runCall (c : Client) (clock : Nat → Int) : PublishCall → Nat →
    Outcome (List UpdateRecord × Nat)
  | PublishCall.single mac attr value, t =>
    match c.set_device_attribute clock t mac attr value with
    | Outcome.panicked m => Outcome.panicked m
    | Outcome.ok (a, t2) => Outcome.ok (a.records, t2)
  | PublishCall.bulk mac attrs, t =>
    match c.set_device_attributes clock t mac attrs with
    | Outcome.panicked m => Outcome.panicked m
    | Outcome.ok (a, t2) => Outcome.ok (a.records, t2)

/-- Run a sequence of publish calls on one client, collecting the wire
records in call order; a panic stops the sequence. -/
def runPublishes (c : Client) (clock : Nat → Int) : List PublishCall → Nat → List UpdateRecord
  | [], _ => []
  | call :: rest, t =>
    match runCall c clock call t with
    | Outcome.panicked _ => []
    | Outcome.ok (recs, t2) => recs ++ runPublishes c clock rest t2

/-- A connected client with preferred QoS at-least-once, built through the
public constructors only: new, with_preferred_qos, set_session, start. -/
def demoClient : Client :=
  match (((Client.new "user" "pass").with_preferred_qos QoS.atLeastOnce).set_session
      "tok").start true with
  | Outcome.ok (Except.ok c) => c
  | _ => Client.new "user" "pass"

/-- A connected client with the default preferred QoS. -/
def demoClientDefault : Client :=
  match ((Client.new "user" "pass").set_session "tok").start true with
  | Outcome.ok (Except.ok c) => c
  | _ => Client.new "user" "pass"

/-- The merge the spec describes for one event: fold the event's key/value
pairs into an attribute map in order, insert-or-overwrite per key. Stated
from the spec's words, for comparison with the listener task's update. -/
def specMergeAttrs (m : AttrMap) (attrs : List (String × String)) : AttrMap :=
  attrs.foldl (fun m2 kv => insertAttr m2 kv.1 kv.2) m

/-- The concrete inbound payload of the decoding scenario. -/
def payloadC3 : List Char := "[\x7b\"type\":\"switch\",\"value\":\"1\"\x7d]".data

/-- A concrete cached device. -/
def devW : Device :=
  { category := "wifielement"
    mac := "AA:BB:CC"
    type_code := "W21-N13"
    attributes := fun k => if k = "switch" then some "0" else none }

/-- A concrete cache holding only devW. -/
def cacheW : Cache :=
  fun id => if id = "AA:BB:CC" then some devW else none

/- =====================================================================
Theorems
===================================================================== -/

/-- C1, counterexample: a client that authenticated once (login succeeded,
so it holds a session token) does not get the "already logged in" error on
a second login without an intervening close: the second login issues a
second network round trip, succeeds, and silently overwrites the prior
token, because the guard in Client::login tests the connection state, not
the session. -/
theorem c1_counterexample :
    (((Client.new "user" "pass").login (Except.ok "tok1")).1.session = some "tok1") ∧
    ((((Client.new "user" "pass").login (Except.ok "tok1")).1.login (Except.ok "tok2")).2.1
      ≠ Except.error Error.loggedIn) ∧
    ((((Client.new "user" "pass").login (Except.ok "tok1")).1.login (Except.ok "tok2")).2.2
      = true) ∧
    ((((Client.new "user" "pass").login (Except.ok "tok1")).1.login (Except.ok "tok2")).1.session
      = some "tok2") := by
  refine ⟨rfl, ?_, rfl, rfl⟩
  intro h
  exact Except.noConfusion h

/-- C1, amended: Client::login guards on the connection state, not on the
session token. Once the client has been started (its connection state is
present), a further login fails with the "already logged in" error, issues
no network round trip, and leaves the client unchanged; a second login
before start, by contrast, repeats the round trip and replaces the token. -/
theorem c1_login_guard (c : Client) (s : ClientState) (h : c.state = some s)
    (net : Except Error String) :
    c.login net = (c, Except.error Error.loggedIn, false) := by
  simp [Client.login, h]

/-- Witness for c1_login_guard at a concrete started client. -/
theorem c1_login_guard_witness :
    demoClient.login (Except.ok "tok2")
      = (demoClient, Except.error Error.loggedIn, false) :=
  c1_login_guard demoClient { listener_handle := none } rfl (Except.ok "tok2")

/-- C2, counterexample: the preferred QoS is not applied uniformly. On an
instance configured with at-least-once, subscribe_device still subscribes
with the hard-coded at-most-once while set_device_attribute publishes with
at-least-once, so not every operation uses the instance's QoS. -/
theorem c2_counterexample :
    demoClient.preferred_qos = QoS.atLeastOnce ∧
    demoClient.subscribe_device "AA:BB:CC"
      = Outcome.ok (MqttAction.subscribe (statusTopic "AA:BB:CC") QoS.atMostOnce) ∧
    demoClient.set_device_attribute (fun _ => 0) 0 "AA:BB:CC" "switch" "1"
      = Outcome.ok
          (MqttAction.publish (updateTopic "AA:BB:CC") QoS.atLeastOnce false
            (WirePayload.single
              { dn := "AA:BB:CC", type := "switch", value := "1", time := 0 }), 1) ∧
    QoS.atMostOnce ≠ QoS.atLeastOnce := by
  refine ⟨rfl, rfl, rfl, ?_⟩
  intro h
  exact QoS.noConfusion h

/-- C2, amended: on a connected client the publish operations
(set_device_attribute and set_device_attributes) use the instance's
preferred QoS uniformly, while subscribe_device and subscribe_devices
always use at-most-once regardless of the instance's preferred QoS; the
QoS is therefore uniform across all operations only when the preferred QoS
is the default at-most-once. -/
theorem c2_qos_per_operation (c : Client) (s : ClientState) (h : c.state = some s)
    (m k v : String) (ms : List String) (clock : Nat → Int) (t : Nat)
    (attrs : List (String × String)) :
    c.subscribe_device m
      = Outcome.ok (MqttAction.subscribe (statusTopic m) QoS.atMostOnce) ∧
    c.subscribe_devices ms
      = Outcome.ok (MqttAction.subscribeMany
          (ms.map (fun d => (statusTopic d, QoS.atMostOnce)))) ∧
    c.set_device_attribute clock t m k v
      = Outcome.ok
          (MqttAction.publish (updateTopic m) c.preferred_qos false
            (WirePayload.single { dn := m, type := k, value := v, time := clock t }),
           t + 1) ∧
    c.set_device_attributes clock t m attrs
      = Outcome.ok
          (MqttAction.publish (updateTopic m) c.preferred_qos false
            (WirePayload.bulk (stampRecords m attrs clock t)),
           t + attrs.length) := by
  refine ⟨?_, ?_, ?_, ?_⟩ <;>
    simp [Client.subscribe_device, Client.subscribe_devices,
      Client.set_device_attribute, Client.set_device_attributes, h]

/-- Witness for c2_qos_per_operation at a concrete connected client. -/
theorem c2_qos_per_operation_witness :
    demoClient.subscribe_device "AA"
      = Outcome.ok (MqttAction.subscribe (statusTopic "AA") QoS.atMostOnce) ∧
    demoClient.subscribe_devices ["AA", "BB"]
      = Outcome.ok (MqttAction.subscribeMany
          (["AA", "BB"].map (fun d => (statusTopic d, QoS.atMostOnce)))) ∧
    demoClient.set_device_attribute (fun n => (n : Int)) 0 "AA" "switch" "1"
      = Outcome.ok
          (MqttAction.publish (updateTopic "AA") demoClient.preferred_qos false
            (WirePayload.single
              { dn := "AA", type := "switch", value := "1", time := (fun n => (n : Int)) 0 }),
           0 + 1) ∧
    demoClient.set_device_attributes (fun n => (n : Int)) 0 "AA" [("a", "1")]
      = Outcome.ok
          (MqttAction.publish (updateTopic "AA") demoClient.preferred_qos false
            (WirePayload.bulk (stampRecords "AA" [("a", "1")] (fun n => (n : Int)) 0)),
           0 + [("a", "1")].length) :=
  c2_qos_per_operation demoClient { listener_handle := none } rfl
    "AA" "switch" "1" ["AA", "BB"] (fun n => (n : Int)) 0 [("a", "1")]

/-- C5: when poll reaches an inbound publish on a status-matching topic
whose payload does not decode as a JSON array of type/value records, the
poll call panics on the unwrap: it yields no event and does not move on to
the rest of the stream, whatever that rest is. -/
theorem c5_malformed_payload_aborts_poll (topic : String) (payload : List Char)
    (mac : String) (rest : List Incoming)
    (hd : decodeTopic topic = some mac) (hp : parsePayload payload = none) :
    pollList (Incoming.publish topic payload :: rest) = PollResult.panicked := by
  simp [pollList, hd, hp]

/-- Witness for c5_malformed_payload_aborts_poll: a malformed payload on a
matched status topic, followed by a further message that is never
reached. -/
theorem c5_malformed_payload_aborts_poll_witness :
    pollList [Incoming.publish "wifielement/AA:BB:CC/status" "nope".data, Incoming.other]
      = PollResult.panicked :=
  c5_malformed_payload_aborts_poll "wifielement/AA:BB:CC/status" "nope".data
    "AA:BB:CC" [Incoming.other] (by decide) (by decide)

/-- C9: each connection-requiring operation (subscribe_device,
subscribe_devices, set_device_attribute, set_device_attributes,
wifi_devices) panics with the "not logged in" assertion — a programmer
error, not a recoverable Error value — when the connection state is
absent; and when the connection state is present, none of them panics. -/
theorem c9_precondition_panics (c : Client) (m k v : String) (ms : List String)
    (clock : Nat → Int) (t : Nat) (attrs : List (String × String))
    (response : Except Error (List Device)) :
    (c.state = none →
      c.subscribe_device m = Outcome.panicked "not logged in" ∧
      c.subscribe_devices ms = Outcome.panicked "not logged in" ∧
      c.set_device_attribute clock t m k v = Outcome.panicked "not logged in" ∧
      c.set_device_attributes clock t m attrs = Outcome.panicked "not logged in" ∧
      c.wifi_devices response = Outcome.panicked "not logged in") ∧
    (∀ s : ClientState, c.state = some s →
      (c.subscribe_device m).isPanic = false ∧
      (c.subscribe_devices ms).isPanic = false ∧
      (c.set_device_attribute clock t m k v).isPanic = false ∧
      (c.set_device_attributes clock t m attrs).isPanic = false ∧
      (c.wifi_devices response).isPanic = false) := by
  constructor
  · intro h
    refine ⟨?_, ?_, ?_, ?_, ?_⟩ <;>
      simp [Client.subscribe_device, Client.subscribe_devices,
        Client.set_device_attribute, Client.set_device_attributes,
        Client.wifi_devices, h]
  · intro s h
    refine ⟨?_, ?_, ?_, ?_, ?_⟩ <;>
      simp [Client.subscribe_device, Client.subscribe_devices,
        Client.set_device_attribute, Client.set_device_attributes,
        Client.wifi_devices, Outcome.isPanic, h]

/-- Witness for c9_precondition_panics: both sides exercised, at a fresh
(unconnected) client and at a connected one. -/
theorem c9_precondition_panics_witness :
    ((Client.new "user" "pass").subscribe_device "AA"
        = Outcome.panicked "not logged in" ∧
      (Client.new "user" "pass").subscribe_devices ["AA"]
        = Outcome.panicked "not logged in" ∧
      (Client.new "user" "pass").set_device_attribute (fun _ => 0) 0 "AA" "k" "v"
        = Outcome.panicked "not logged in" ∧
      (Client.new "user" "pass").set_device_attributes (fun _ => 0) 0 "AA" []
        = Outcome.panicked "not logged in" ∧
      (Client.new "user" "pass").wifi_devices (Except.ok [])
        = Outcome.panicked "not logged in") ∧
    ((demoClientDefault.subscribe_device "AA").isPanic = false ∧
      (demoClientDefault.subscribe_devices ["AA"]).isPanic = false ∧
      (demoClientDefault.set_device_attribute (fun _ => 0) 0 "AA" "k" "v").isPanic = false ∧
      (demoClientDefault.set_device_attributes (fun _ => 0) 0 "AA" []).isPanic = false ∧
      (demoClientDefault.wifi_devices (Except.ok [])).isPanic = false) :=
  ⟨(c9_precondition_panics (Client.new "user" "pass") "AA" "k" "v" ["AA"]
      (fun _ => 0) 0 [] (Except.ok [])).1 rfl,
   (c9_precondition_panics demoClientDefault "AA" "k" "v" ["AA"]
      (fun _ => 0) 0 [] (Except.ok [])).2 { listener_handle := none } rfl⟩

/-- Applying an event whose device id is absent from the cache leaves the
cache unchanged: each loop iteration's lookup misses and skips the pair. -/
theorem applyEvent_absent (mac : String) :
    ∀ (attrs : List (String × String)) (cache : Cache), cache mac = none →
      applyEvent cache mac attrs = cache := by
  intro attrs
  induction attrs with
  | nil => intro cache _; rfl
  | cons kv rest ih =>
    intro cache h
    have hp : applyEventPair cache mac kv.1 kv.2 = cache := by
      unfold applyEventPair; rw [h]
    calc applyEvent cache mac (kv :: rest)
        = applyEvent (applyEventPair cache mac kv.1 kv.2) mac rest := rfl
      _ = applyEvent cache mac rest := by rw [hp]
      _ = cache := ih cache h

/-- Applying an event never touches cache entries of other device ids. -/
theorem applyEvent_frame (mac : String) :
    ∀ (attrs : List (String × String)) (cache : Cache) (id : String), id ≠ mac →
      applyEvent cache mac attrs id = cache id := by
  intro attrs
  induction attrs with
  | nil => intro cache id _; rfl
  | cons kv rest ih =>
    intro cache id hne
    have hp : applyEventPair cache mac kv.1 kv.2 id = cache id := by
      unfold applyEventPair
      cases hcm : cache mac with
      | none => rfl
      | some d => simp [hne]
    calc applyEvent cache mac (kv :: rest) id
        = applyEvent (applyEventPair cache mac kv.1 kv.2) mac rest id := rfl
      _ = applyEventPair cache mac kv.1 kv.2 id := ih _ id hne
      _ = cache id := hp

/-- Applying an event to a cached device rewrites exactly its attribute
map, by the insert-or-overwrite fold of the event's pairs in order. -/
theorem applyEvent_present (mac : String) :
    ∀ (attrs : List (String × String)) (cache : Cache) (d : Device), cache mac = some d →
      applyEvent cache mac attrs mac
        = some { d with attributes := specMergeAttrs d.attributes attrs } := by
  intro attrs
  induction attrs with
  | nil => intro cache d h; exact h
  | cons kv rest ih =>
    intro cache d h
    have h2 : applyEventPair cache mac kv.1 kv.2 mac
        = some { d with attributes := insertAttr d.attributes kv.1 kv.2 } := by
      unfold applyEventPair; rw [h]; simp
    calc applyEvent cache mac (kv :: rest) mac
        = applyEvent (applyEventPair cache mac kv.1 kv.2) mac rest mac := rfl
      _ = some { d with attributes := specMergeAttrs (insertAttr d.attributes kv.1 kv.2) rest } :=
          ih _ _ h2
      _ = some { d with attributes := specMergeAttrs d.attributes (kv :: rest) } := rfl

/-- C6: applying a decoded event to the cache merges its key/value pairs
into the matching device's attribute map in order (insert-or-overwrite per
key) while changing no other field of that device and no entry of any
other device id; an event whose device id is absent from the cache leaves
the cache entirely unchanged. -/
theorem c6_cache_merge (cache : Cache) (mac : String) (attrs : List (String × String)) :
    (cache mac = none → applyEvent cache mac attrs = cache) ∧
    (∀ d : Device, cache mac = some d →
      applyEvent cache mac attrs mac
        = some { d with attributes := specMergeAttrs d.attributes attrs } ∧
      ∀ id : String, id ≠ mac → applyEvent cache mac attrs id = cache id) :=
  ⟨fun h => applyEvent_absent mac attrs cache h,
   fun d hd =>
    ⟨applyEvent_present mac attrs cache d hd,
     fun id hne => applyEvent_frame mac attrs cache id hne⟩⟩

/-- Witness for c6_cache_merge: the absent case at an empty cache, the
present case at the one-device cache. -/
theorem c6_cache_merge_witness :
    applyEvent (fun _ => none) "AA:BB:CC" [("switch", "1")] = (fun _ => none) ∧
    applyEvent cacheW "AA:BB:CC" [("switch", "1")] "AA:BB:CC"
      = some { devW with
          attributes := specMergeAttrs devW.attributes [("switch", "1")] } ∧
    applyEvent cacheW "AA:BB:CC" [("switch", "1")] "ZZ" = cacheW "ZZ" :=
  ⟨(c6_cache_merge (fun _ => none) "AA:BB:CC" [("switch", "1")]).1 rfl,
   ((c6_cache_merge cacheW "AA:BB:CC" [("switch", "1")]).2 devW rfl).1,
   ((c6_cache_merge cacheW "AA:BB:CC" [("switch", "1")]).2 devW rfl).2 "ZZ" (by decide)⟩

/-- C3: on the inbound stream delivering topic wifielement/AA:BB:CC/status
with payload `[ \x7b "type": "switch", "value": "1" \x7d ]`, poll yields
exactly one event, for device AA:BB:CC with attribute list
[("switch", "1")], and applying that event to any cache holding AA:BB:CC
makes the cached device report attribute "switch" as "1". -/
theorem c3_decode_and_cache (cache : Cache) (d : Device)
    (h : cache "AA:BB:CC" = some d) :
    pollList [Incoming.publish "wifielement/AA:BB:CC/status" payloadC3]
      = PollResult.ok (Event.deviceAttributesChanged "AA:BB:CC" [("switch", "1")]) [] ∧
    ∃ d2 : Device,
      applyEvent cache "AA:BB:CC" [("switch", "1")] "AA:BB:CC" = some d2 ∧
      d2.attributes "switch" = some "1" := by
  refine ⟨by decide, ?_⟩
  refine ⟨{ d with attributes := specMergeAttrs d.attributes [("switch", "1")] }, ?_, ?_⟩
  · exact applyEvent_present "AA:BB:CC" [("switch", "1")] cache d h
  · simp [specMergeAttrs, insertAttr]

/-- Witness for c3_decode_and_cache at the concrete one-device cache. -/
theorem c3_decode_and_cache_witness :
    pollList [Incoming.publish "wifielement/AA:BB:CC/status" payloadC3]
      = PollResult.ok (Event.deviceAttributesChanged "AA:BB:CC" [("switch", "1")]) [] ∧
    ∃ d2 : Device,
      applyEvent cacheW "AA:BB:CC" [("switch", "1")] "AA:BB:CC" = some d2 ∧
      d2.attributes "switch" = some "1" :=
  c3_decode_and_cache cacheW devW rfl

/-- C4: toggling a cached device whose cached "switch" is "0" publishes
switch = "1" (and answers with value "1"); cached "switch" "1" publishes
switch = "0"; a cached device without a "switch" attribute causes no
publish at all and the request is rejected with 400 Bad Request. -/
theorem c4_toggle (c : Client) (s : ClientState) (hs : c.state = some s)
    (clock : Nat → Int) (t : Nat) (devices : Cache) (id : String) (d : Device)
    (hd : devices id = some d) :
    (d.attributes "switch" = some "0" →
      toggle_device c clock t true devices id
        = Outcome.ok
            ([MqttAction.publish (updateTopic d.mac) c.preferred_qos false
                (WirePayload.single
                  { dn := d.mac, type := "switch", value := "1", time := clock t })],
             ToggleResponse.okValue "1")) ∧
    (d.attributes "switch" = some "1" →
      toggle_device c clock t true devices id
        = Outcome.ok
            ([MqttAction.publish (updateTopic d.mac) c.preferred_qos false
                (WirePayload.single
                  { dn := d.mac, type := "switch", value := "0", time := clock t })],
             ToggleResponse.okValue "0")) ∧
    (d.attributes "switch" = none →
      toggle_device c clock t true devices id
        = Outcome.ok ([], ToggleResponse.badRequest)) := by
  refine ⟨?_, ?_, ?_⟩ <;> intro hsw <;>
    simp [toggle_device, hd, Device.get_attribute, hsw,
      Client.set_device_attribute, hs]

/-- Witness for c4_toggle: the three switch cases at concrete caches. -/
theorem c4_toggle_witness :
    (toggle_device demoClientDefault (fun _ => 5) 0 true cacheW "AA:BB:CC"
        = Outcome.ok
            ([MqttAction.publish (updateTopic devW.mac) demoClientDefault.preferred_qos false
                (WirePayload.single
                  { dn := devW.mac, type := "switch", value := "1", time := (fun _ => (5 : Int)) 0 })],
             ToggleResponse.okValue "1")) ∧
    (toggle_device demoClientDefault (fun _ => 5) 0 true
        (fun id => if id = "AA:BB:CC" then some { devW with attributes := fun k => if k = "switch" then some "1" else none } else none) "AA:BB:CC"
        = Outcome.ok
            ([MqttAction.publish (updateTopic devW.mac) demoClientDefault.preferred_qos false
                (WirePayload.single
                  { dn := devW.mac, type := "switch", value := "0", time := (fun _ => (5 : Int)) 0 })],
             ToggleResponse.okValue "0")) ∧
    (toggle_device demoClientDefault (fun _ => 5) 0 true
        (fun id => if id = "AA:BB:CC" then some { devW with attributes := fun _ => none } else none) "AA:BB:CC"
        = Outcome.ok ([], ToggleResponse.badRequest)) :=
  ⟨(c4_toggle demoClientDefault { listener_handle := none } rfl (fun _ => 5) 0
      cacheW "AA:BB:CC" devW rfl).1 rfl,
   (c4_toggle demoClientDefault { listener_handle := none } rfl (fun _ => 5) 0
      (fun id => if id = "AA:BB:CC" then some { devW with attributes := fun k => if k = "switch" then some "1" else none } else none)
      "AA:BB:CC" { devW with attributes := fun k => if k = "switch" then some "1" else none } rfl).2.1 rfl,
   (c4_toggle demoClientDefault { listener_handle := none } rfl (fun _ => 5) 0
      (fun id => if id = "AA:BB:CC" then some { devW with attributes := fun _ => none } else none)
      "AA:BB:CC" { devW with attributes := fun _ => none } rfl).2.2 rfl⟩

/-- The status-topic regex matches a character list exactly when it is the
fixed head, a nonempty capture of characters from [0-9A-F:], and the fixed
tail. -/
theorem decodeTopicChars_eq_some (cs m : List Char) :
    decodeTopicChars cs = some m ↔
      cs = statusPre ++ m ++ statusSuf ∧ m ≠ [] ∧ m.all isMacChar = true := by
  constructor
  · intro h
    unfold decodeTopicChars at h
    split at h
    case isFalse => exact absurd h (by simp)
    case isTrue hc =>
      obtain ⟨h1, h2, h3⟩ := hc
      split at h
      case isFalse => exact absurd h (by simp)
      case isTrue hall =>
        have hm : m = (cs.drop 12).take (cs.length - 19) := by
          injection h with h2
          exact h2.symm
        subst hm
        refine ⟨?_, ?_, hall⟩
        · rw [List.append_assoc]
          conv_lhs => rw [← List.take_append_drop 12 cs]
          rw [h1]
          congr 1
          conv_lhs => rw [← List.take_append_drop (cs.length - 19) (cs.drop 12)]
          congr 1
          rw [List.drop_drop, ← h2]
          congr 1
          omega
        · have hlt : ((cs.drop 12).take (cs.length - 19)).length = cs.length - 19 := by
            rw [List.length_take, List.length_drop]
            omega
          intro hnil
          rw [hnil] at hlt
          simp at hlt
          omega
  · intro ⟨h1, h2, h3⟩
    have hm1 : 0 < m.length := List.length_pos.mpr h2
    have hlen : cs.length = m.length + 19 := by
      subst h1
      simp [statusPre, statusSuf]
    have htake : cs.take 12 = statusPre := by
      subst h1
      rw [List.append_assoc]
      exact @List.take_left' _ statusPre (m ++ statusSuf) 12 (by decide)
    have hdrop : cs.drop (cs.length - 7) = statusSuf := by
      subst h1
      refine @List.drop_left' _ (statusPre ++ m) statusSuf _ ?_
      simp [statusPre, statusSuf]
    have hmid : (cs.drop 12).take (cs.length - 19) = m := by
      have h12 : cs.drop 12 = m ++ statusSuf := by
        subst h1
        rw [List.append_assoc]
        exact @List.drop_left' _ statusPre (m ++ statusSuf) 12 (by decide)
      rw [h12]
      have hml : cs.length - 19 = m.length := by omega
      rw [hml]
      exact @List.take_left' _ m statusSuf m.length rfl
    unfold decodeTopicChars
    rw [if_pos ⟨htake, hdrop, by omega⟩, hmid, if_pos h3]

/-- String version of the status-topic characterization. -/
theorem decodeTopic_eq_some (t m : String) :
    decodeTopic t = some m ↔
      t = statusTopic m ∧ m.data ≠ [] ∧ m.data.all isMacChar = true := by
  constructor
  · intro h
    unfold decodeTopic at h
    cases hc : decodeTopicChars t.data with
    | none => rw [hc] at h; exact absurd h (by simp)
    | some l =>
      rw [hc] at h
      have hml : m = String.mk l := by
        injection h with h2
        exact h2.symm
      subst hml
      obtain ⟨he, hne, hall⟩ := (decodeTopicChars_eq_some t.data l).mp hc
      refine ⟨?_, hne, hall⟩
      apply String.ext
      rw [he, statusTopic]
      rw [String.data_append, String.data_append]
      rfl
  · intro ⟨h1, h2, h3⟩
    have hc : decodeTopicChars t.data = some m.data := by
      rw [(decodeTopicChars_eq_some t.data m.data)]
      refine ⟨?_, h2, h3⟩
      rw [h1, statusTopic, String.data_append, String.data_append]
      rfl
    unfold decodeTopic
    rw [hc]
    rfl

/-- C10: poll decodes a publish only when its topic matches the anchored
pattern wifielement/(id)/status with a nonempty id of uppercase
hexadecimal digits and colons, and an inbound publish on the status topic
of a device id containing any other character is silently skipped — poll
proceeds with the rest of the stream, never yielding an event for it, no
matter how well-formed the payload is. -/
theorem c10_topic_filter :
    (∀ (t m : String), decodeTopic t = some m →
      t = statusTopic m ∧ m.data ≠ [] ∧ m.data.all isMacChar = true) ∧
    (∀ (id : String) (payload : List Char) (rest : List Incoming) (c : Char),
      c ∈ id.data → isMacChar c = false →
      pollList (Incoming.publish (statusTopic id) payload :: rest) = pollList rest) := by
  constructor
  · intro t m h
    exact (decodeTopic_eq_some t m).mp h
  · intro id payload rest c hc hbad
    have hnone : decodeTopic (statusTopic id) = none := by
      cases hd : decodeTopic (statusTopic id) with
      | none => rfl
      | some m =>
        obtain ⟨he, _, hall⟩ := (decodeTopic_eq_some (statusTopic id) m).mp hd
        have hdata : id.data = m.data := by
          have := congrArg String.data he
          rw [statusTopic, statusTopic, String.data_append, String.data_append,
            String.data_append, String.data_append] at this
          have h2 := List.append_cancel_right this
          exact List.append_cancel_left h2
        rw [← hdata] at hall
        rw [List.all_eq_true.mp hall c hc] at hbad
        exact Bool.noConfusion hbad
    simp [pollList, hnone]

/-- Witness for c10_topic_filter: a matched uppercase topic and a skipped
lowercase one. -/
theorem c10_topic_filter_witness :
    ("wifielement/AB/status" = statusTopic "AB" ∧
      "AB".data ≠ [] ∧ "AB".data.all isMacChar = true) ∧
    pollList [Incoming.publish (statusTopic "aa:bb") payloadC3, Incoming.disconnect]
      = pollList [Incoming.disconnect] :=
  ⟨c10_topic_filter.1 "wifielement/AB/status" "AB" (by decide),
   c10_topic_filter.2 "aa:bb" payloadC3 [Incoming.disconnect] 'a' (by decide) (by decide)⟩

/-- Processing the inbound stream stops at a malformed status publish: the
cache after the whole stream equals the cache just before that message,
whatever follows it. -/
theorem listener_task_stops (topic : String) (bad : List Char) (dmac : String)
    (hd : decodeTopic topic = some dmac) (hp : parsePayload bad = none) :
    ∀ (pre : List Incoming) (cache : Cache) (post : List Incoming),
      listener_task cache (pre ++ Incoming.publish topic bad :: post)
        = listener_task cache pre := by
  intro pre
  induction pre with
  | nil =>
    intro cache post
    simp [listener_task, hd, hp]
  | cons m rest ih =>
    intro cache post
    cases m with
    | publish t2 p2 =>
      simp only [List.cons_append, listener_task]
      cases hdt : decodeTopic t2 with
      | none => exact ih cache post
      | some mac2 =>
        cases hpp : parsePayload p2 with
        | none => rfl
        | some attrs => exact ih _ post
    | disconnect => rfl
    | connAck => exact ih cache post
    | other => exact ih cache post
    | transportError => rfl

/-- C8: a malformed inbound message on one device's status topic never
changes the cached attributes of any other device: after processing the
whole stream, every cache entry of a different device id is exactly what
it was when the malformed message arrived (the stream's effect up to just
before that message). -/
theorem c8_no_cross_device_corruption (topic : String) (bad : List Char)
    (dmac : String) (pre post : List Incoming) (cache : Cache)
    (hd : decodeTopic topic = some dmac) (hp : parsePayload bad = none)
    (id : String) (_hne : id ≠ dmac) :
    listener_task cache (pre ++ Incoming.publish topic bad :: post) id
      = listener_task cache pre id := by
  rw [listener_task_stops topic bad dmac hd hp pre cache post]

/-- Witness for c8_no_cross_device_corruption: a good event for AA:BB:CC,
then a malformed message for DD:EE, then further traffic; entry ZZ is
untouched. -/
theorem c8_no_cross_device_corruption_witness :
    listener_task cacheW
        ([Incoming.publish (statusTopic "AA:BB:CC") payloadC3]
          ++ Incoming.publish (statusTopic "DD:EE") "oops".data
          :: [Incoming.publish (statusTopic "AA:BB:CC") payloadC3]) "ZZ"
      = listener_task cacheW [Incoming.publish (statusTopic "AA:BB:CC") payloadC3] "ZZ" :=
  c8_no_cross_device_corruption (statusTopic "DD:EE") "oops".data "DD:EE"
    [Incoming.publish (statusTopic "AA:BB:CC") payloadC3]
    [Incoming.publish (statusTopic "AA:BB:CC") payloadC3]
    cacheW (by decide) (by decide) "ZZ" (by decide)

/-- Every record of a bulk envelope is stamped with a clock reading whose
index lies in the call's reading window, in list order. -/
theorem stampRecords_mem (mac : String) (clock : Nat → Int) :
    ∀ (attrs : List (String × String)) (t : Nat) (r : UpdateRecord),
      r ∈ stampRecords mac attrs clock t →
      ∃ k : Nat, t ≤ k ∧ k < t + attrs.length ∧ r.time = clock k := by
  intro attrs
  induction attrs with
  | nil => intro t r hr; exact absurd hr (by simp [stampRecords])
  | cons kv rest ih =>
    obtain ⟨a, b⟩ := kv
    intro t r hr
    rw [stampRecords] at hr
    rcases List.mem_cons.mp hr with h | h
    · exact ⟨t, Nat.le_refl t, by simp, by rw [h]⟩
    · obtain ⟨k, hk1, hk2, hk3⟩ := ih (t + 1) r h
      exact ⟨k, by omega, by simp; omega, hk3⟩

/-- Under a monotone clock, the records of one bulk envelope carry
non-decreasing timestamps in list order. -/
theorem stampRecords_chain (mac : String) (clock : Nat → Int)
    (hmono : ∀ i j : Nat, i ≤ j → clock i ≤ clock j) :
    ∀ (attrs : List (String × String)) (t : Nat),
      List.Chain' (fun a b : UpdateRecord => a.time ≤ b.time)
        (stampRecords mac attrs clock t) := by
  intro attrs
  induction attrs with
  | nil => intro t; simp [stampRecords]
  | cons kv rest ih =>
    obtain ⟨a, b⟩ := kv
    intro t
    rw [stampRecords]
    refine List.chain'_cons'.mpr ⟨?_, ih (t + 1)⟩
    intro y hy
    obtain ⟨k, hk1, _, hk3⟩ :=
      stampRecords_mem mac clock rest (t + 1) y (List.mem_of_mem_head? hy)
    show clock t ≤ y.time
    rw [hk3]
    exact hmono t k (by omega)

/-- Every wire record of a publish sequence started at clock index t is
stamped with a reading of index at least t. -/
theorem runPublishes_mem (c : Client) (clock : Nat → Int) :
    ∀ (calls : List PublishCall) (t : Nat) (r : UpdateRecord),
      r ∈ runPublishes c clock calls t → ∃ k : Nat, t ≤ k ∧ r.time = clock k := by
  intro calls
  induction calls with
  | nil => intro t r hr; exact absurd hr (by simp [runPublishes])
  | cons call rest ih =>
    intro t r hr
    cases hst : c.state with
    | none =>
      cases call with
      | single m a v =>
        simp [runPublishes, runCall, Client.set_device_attribute, hst] at hr
      | bulk m attrs =>
        simp [runPublishes, runCall, Client.set_device_attributes, hst] at hr
    | some s =>
      cases call with
      | single m a v =>
        simp only [runPublishes, runCall, Client.set_device_attribute, hst,
          MqttAction.records, List.cons_append, List.nil_append] at hr
        rcases List.mem_cons.mp hr with h | h
        · exact ⟨t, Nat.le_refl t, by rw [h]⟩
        · obtain ⟨k, hk1, hk2⟩ := ih (t + 1) r h
          exact ⟨k, by omega, hk2⟩
      | bulk m attrs =>
        simp only [runPublishes, runCall, Client.set_device_attributes, hst,
          MqttAction.records] at hr
        rcases List.mem_append.mp hr with h | h
        · obtain ⟨k, hk1, _, hk3⟩ := stampRecords_mem m clock attrs t r h
          exact ⟨k, hk1, hk3⟩
        · obtain ⟨k, hk1, hk2⟩ := ih (t + attrs.length) r h
          exact ⟨k, by omega, hk2⟩

/-- C7: along any sequence of publish calls on one client, and given that
the wall clock read by the calls never goes backwards, the time fields of
the wire envelopes are non-decreasing in call order, and within one bulk
publish non-decreasing in record order — each record is stamped at its own
construction, one clock reading after the previous record's. -/
theorem c7_times_monotone (c : Client) (clock : Nat → Int)
    (hmono : ∀ i j : Nat, i ≤ j → clock i ≤ clock j)
    (calls : List PublishCall) (t : Nat) :
    List.Chain' (fun a b : UpdateRecord => a.time ≤ b.time)
      (runPublishes c clock calls t) := by
  induction calls generalizing t with
  | nil => simp [runPublishes]
  | cons call rest ih =>
    cases hst : c.state with
    | none =>
      cases call with
      | single m a v =>
        simp [runPublishes, runCall, Client.set_device_attribute, hst]
      | bulk m attrs =>
        simp [runPublishes, runCall, Client.set_device_attributes, hst]
    | some s =>
      cases call with
      | single m a v =>
        simp only [runPublishes, runCall, Client.set_device_attribute, hst,
          MqttAction.records, List.cons_append, List.nil_append]
        refine List.chain'_cons'.mpr ⟨?_, ih (t + 1)⟩
        intro y hy
        obtain ⟨k, hk1, hk2⟩ :=
          runPublishes_mem c clock rest (t + 1) y (List.mem_of_mem_head? hy)
        show clock t ≤ y.time
        rw [hk2]
        exact hmono t k (by omega)
      | bulk m attrs =>
        simp only [runPublishes, runCall, Client.set_device_attributes, hst,
          MqttAction.records]
        refine List.chain'_append.mpr
          ⟨stampRecords_chain m clock hmono attrs t, ih (t + attrs.length), ?_⟩
        intro x hx y hy
        have hxm : x ∈ stampRecords m attrs clock t := by
          obtain ⟨hne, hxl⟩ := List.mem_getLast?_eq_getLast hx
          rw [hxl]
          exact List.getLast_mem hne
        obtain ⟨k1, _, hk2, hk3⟩ := stampRecords_mem m clock attrs t x hxm
        obtain ⟨k2, hj1, hj2⟩ :=
          runPublishes_mem c clock rest (t + attrs.length) y (List.mem_of_mem_head? hy)
        show x.time ≤ y.time
        rw [hk3, hj2]
        exact hmono k1 k2 (by omega)

/-- Witness for c7_times_monotone: a single publish, a two-attribute bulk
publish, and another single publish under the identity clock. -/
theorem c7_times_monotone_witness :
    List.Chain' (fun a b : UpdateRecord => a.time ≤ b.time)
      (runPublishes demoClientDefault (fun n => (n : Int))
        [PublishCall.single "AA" "switch" "1",
         PublishCall.bulk "AA" [("brightness", "50"), ("color", "ffffff")],
         PublishCall.single "BB" "switch" "0"] 0) :=
  c7_times_monotone demoClientDefault (fun n => (n : Int))
    (fun _ _ h => Int.ofNat_le.mpr h)
    [PublishCall.single "AA" "switch" "1",
     PublishCall.bulk "AA" [("brightness", "50"), ("color", "ffffff")],
     PublishCall.single "BB" "switch" "0"] 0

end Sengled
